import Mathlib

/-!
Shallow embedding of the request/response core of `kaioagent.py`
(class `KaioAgentSession`): the request dispatcher `handle_request`,
the command executor `execute_command` with its concurrent loading
animation, the file accessor `read_file` / `write_file`, and the
message loop `process_messages`.

Python dictionaries decoded from JSON are modelled as association
lists `List (String × Json)` with unique keys (as `json.loads`
produces); `dictLookup` is dictionary key lookup.  Exceptions that the
Python code can raise are modelled with `Except AgentError`; effects
of the operating system (spawning a subprocess, opening a file) are
parameters of the model (`Env`), so every definition is executable.
-/

namespace KaioAgent

/-- JSON-like runtime values, as produced by `json.loads` and carried in
the `data` mappings of requests and responses.  `obj` is a Python dict. -/
inductive Json where
  | str : String → Json
  | int : Int → Json
  | obj : List (String × Json) → Json
deriving Repr

/-- Dictionary lookup on an association list, mirroring `d[k]` /
`k in d` on a Python dict (keys are unique in a dict). -/
def dictLookup (d : List (String × Json)) (k : String) : Option Json :=
  match d with
  | [] => none
  | (k', v) :: rest => if k' = k then some v else dictLookup rest k

/-- The Python test `k in d`. -/
def hasKey (d : List (String × Json)) (k : String) : Bool :=
  (dictLookup d k).isSome

/-- The keys of a dict, in insertion order. -/
def dictKeys (d : List (String × Json)) : List String :=
  d.map Prod.fst

/-- Python `action == s` where `s` is a string literal: true exactly when
`action` is a string with content `s` (comparison of a non-string value
with a string is simply `False` in Python, not an error). -/
def isStrEq (a : Json) (s : String) : Bool :=
  match a with
  | .str t => t = s
  | _ => false

/-- Exceptions the embedded code can raise (and propagate). -/
inductive AgentError where
  | typeError : AgentError
  | keyError : String → AgentError
  | spawnError : AgentError
  | jsonDecodeError : AgentError
  | unicodeDecodeError : AgentError
deriving Repr, DecidableEq

/-- Outcome of `await process.communicate()` plus `process.returncode`:
the exit status and the fully captured output streams as raw bytes
(`communicate()` returns `bytes`; decoding them is the program's own
step at lines 179–180 and can itself raise). -/
structure ProcessResult where
  returncode : Int
  stdout : List Nat
  stderr : List Nat
deriving Repr, DecidableEq

/-- Continuation byte of a UTF-8 sequence: `0x80`–`0xBF`. -/
def isContByte (b : Nat) : Bool :=
  0x80 ≤ b && b ≤ 0xBF

/-- Strict UTF-8 decoding of a byte list, as Python's `bytes.decode()`
performs it: rejects overlong encodings (first-byte minima `0xC2`,
and the tightened second-byte ranges after `0xE0` and `0xF0`),
surrogates (second byte at most `0x9F` after `0xED`), code points above
`U+10FFFF` (second byte at most `0x8F` after `0xF4`), stray
continuation bytes, and truncated sequences.  The fuel argument only
drives the recursion; each step consumes at least one byte, so with
`fuel = length` the fuel never runs out first. -/
def utf8DecodeAux : Nat → List Nat → Option (List Char)
  | _, [] => some []
  | 0, _ :: _ => none
  | fuel + 1, b0 :: rest =>
    if b0 < 0x80 then
      (utf8DecodeAux fuel rest).map (fun cs => Char.ofNat b0 :: cs)
    else if 0xC2 ≤ b0 && b0 ≤ 0xDF then
      match rest with
      | b1 :: rest1 =>
        if isContByte b1 then
          (utf8DecodeAux fuel rest1).map
            (fun cs => Char.ofNat ((b0 - 0xC0) * 0x40 + (b1 - 0x80)) :: cs)
        else none
      | [] => none
    else if 0xE0 ≤ b0 && b0 ≤ 0xEF then
      match rest with
      | b1 :: b2 :: rest2 =>
        if (if b0 = 0xE0 then 0xA0 ≤ b1 && b1 ≤ 0xBF
            else if b0 = 0xED then 0x80 ≤ b1 && b1 ≤ 0x9F
            else isContByte b1) && isContByte b2 then
          (utf8DecodeAux fuel rest2).map
            (fun cs => Char.ofNat
              ((b0 - 0xE0) * 0x1000 + (b1 - 0x80) * 0x40 + (b2 - 0x80)) :: cs)
        else none
      | _ => none
    else if 0xF0 ≤ b0 && b0 ≤ 0xF4 then
      match rest with
      | b1 :: b2 :: b3 :: rest3 =>
        if (if b0 = 0xF0 then 0x90 ≤ b1 && b1 ≤ 0xBF
            else if b0 = 0xF4 then 0x80 ≤ b1 && b1 ≤ 0x8F
            else isContByte b1) && isContByte b2 && isContByte b3 then
          (utf8DecodeAux fuel rest3).map
            (fun cs => Char.ofNat
              ((b0 - 0xF0) * 0x40000 + (b1 - 0x80) * 0x1000
                + (b2 - 0x80) * 0x40 + (b3 - 0x80)) :: cs)
        else none
      | _ => none
    else none

/-- Python `bytes.decode()` (strict UTF-8): `some` the decoded string,
or `none` when the bytes are not valid UTF-8 and `UnicodeDecodeError`
is raised. -/
def utf8Decode (bytes : List Nat) : Option String :=
  (utf8DecodeAux bytes.length bytes).map (fun cs => ⟨cs⟩)

/-- Events in the lifecycle of the loading-animation task inside
`execute_command`: `asyncio.create_task(self.loading_animation())` and
`loading_task.cancel()`. -/
inductive TaskEvent where
  | startIndicator
  | cancelIndicator
deriving Repr, DecidableEq

/-- Whether an indicator task is still runnable after a sequence of task
events: a start leaves it running, a cancel stops it (the animation loop
catches `asyncio.CancelledError` and returns). -/
def indicatorRunningAfter (trace : List TaskEvent) : Bool :=
  trace.foldl
    (fun _ ev =>
      match ev with
      | .startIndicator => true
      | .cancelIndicator => false)
    false

/-- Model of the local filesystem as the file accessor sees it:
`read p` is the outcome of `open(p, "r").read()` on the raw stored text
(`Except.error` carries `str(e)` of the raised `OSError` /
`UnicodeDecodeError`), and `writable p` is `some msg` when
`open(p, "w")` raises with message `msg`. -/
structure FS where
  read : String → Except String String
  writable : String → Option String

/-- Environment of one agent session: what the operating system does.
`spawn c` is `none` when `asyncio.create_subprocess_shell(c, ...)`
raises (the process cannot be spawned at all), otherwise the completed
process's exit status and captured streams. -/
structure Env where
  spawn : String → Option ProcessResult
  fs : FS

/-- Universal-newline translation performed by Python text-mode reading
(`open(path, "r")` with default `newline=None`): `"\r\n"` and a lone
`"\r"` are both translated to `"\n"`. -/
def translateNewlinesList : List Char → List Char
  | [] => []
  | '\r' :: '\n' :: rest => '\n' :: translateNewlinesList rest
  | '\r' :: rest => '\n' :: translateNewlinesList rest
  | c :: rest => c :: translateNewlinesList rest

/-- Universal-newline translation on strings. -/
def translateNewlines (s : String) : String :=
  ⟨translateNewlinesList s.data⟩

/-- Shallow embedding of `KaioAgentSession.read_file` (kaioagent.py
lines 210–225).  The whole body sits in `try: ... except Exception as e:
result = {"error": str(e)}`, so no exception escapes: a failing `open`
or `read` (modelled by `fs.read` returning an error message) and a
non-string `path` (Python would raise `TypeError` inside the `try`)
both produce an `error` entry.  Text-mode reading applies
universal-newline translation to the stored raw text. -/
def read_file (fs : FS) (path : Json) : List (String × Json) :=
  match path with
  | .str p =>
    match fs.read p with
    | .ok raw => [("content", .str (translateNewlines raw))]
    | .error e => [("error", .str e)]
  | _ => [("error", .str "TypeError: invalid path")]

/-- Shallow embedding of `KaioAgentSession.write_file` (kaioagent.py
lines 227–242), returning the updated filesystem and the result dict.
The body sits in `try: ... except Exception as e: result = {"error":
str(e)}`, so no exception escapes.  `open(path, "w")` truncates and
prepares the file (failure modelled by `fs.writable`); on success
`file.write(content)` stores the content (on this platform
`os.linesep = "\n"`, so text-mode writing stores the string unchanged)
and the result is `{"size": len(content)}`.  A non-string `content`
makes `file.write` raise after the truncating `open` (caught, `error`
result); a non-string `path` makes `open` itself raise (caught). -/
def write_file (fs : FS) (path : Json) (content : Json) :
    FS × List (String × Json) :=
  match path with
  | .str p =>
    match fs.writable p with
    | some e => (fs, [("error", .str e)])
    | none =>
      match content with
      | .str c =>
        ({ read := fun q => if q = p then .ok c else fs.read q,
           writable := fs.writable },
         [("size", .int (c.length : Int))])
      | _ =>
        ({ read := fun q => if q = p then .ok "" else fs.read q,
           writable := fs.writable },
         [("error", .str "TypeError: write() argument must be str")])
  | _ => (fs, [("error", .str "TypeError: invalid path")])

/-- Shallow embedding of `KaioAgentSession.execute_command` (kaioagent.py
lines 152–191), returning the result (or the propagated exception) and
the trace of loading-animation task events.  The body has no `try`:
 * `asyncio.create_subprocess_shell` raising (cannot spawn, or a
   non-string command) propagates out before any task is created;
 * otherwise `loading_task = asyncio.create_task(...)` starts the
   indicator, `await process.communicate()` runs the subprocess to
   completion and `loading_task.cancel()` stops the indicator;
 * then the result dict is built: `stdout.decode()` and
   `stderr.decode()` (lines 179–180) are strict UTF-8 decodes of the
   captured bytes and raise `UnicodeDecodeError` (propagated, after the
   cancel) when a stream is not valid UTF-8; when both decode, the
   result `{"return_code", "stdout", "stderr"}` is returned
   unconditionally, whatever the exit status. -/
def execute_command (spawn : String → Option ProcessResult) (command : Json) :
    Except AgentError (List (String × Json)) × List TaskEvent :=
  match command with
  | .str cmd =>
    match spawn cmd with
    | none => (.error .spawnError, [])
    | some pr =>
      match utf8Decode pr.stdout with
      | none => (.error .unicodeDecodeError, [.startIndicator, .cancelIndicator])
      | some out =>
        match utf8Decode pr.stderr with
        | none => (.error .unicodeDecodeError, [.startIndicator, .cancelIndicator])
        | some err =>
          (.ok [("return_code", .int pr.returncode),
                ("stdout", .str out),
                ("stderr", .str err)],
           [.startIndicator, .cancelIndicator])
  | _ => (.error .typeError, [])

/-- Embedding of the `ClientRequest` dataclass. Field types are not
checked at runtime by Python, so both fields hold arbitrary values. -/
structure ClientRequest where
  request_id : Json
  data : Json

/-- Embedding of the `ClientResponse` dataclass. -/
structure ClientResponse where
  request_id : Json
  error : Bool
  data : List (String × Json)

/-- The call `ClientRequest(**request)`: succeeds exactly when the dict
has the two dataclass fields and nothing else, otherwise Python raises
`TypeError` (missing or unexpected keyword argument). -/
def mkClientRequest (request : List (String × Json)) :
    Except AgentError ClientRequest :=
  match dictLookup request "request_id", dictLookup request "data" with
  | some rid, some dat =>
    if (dictKeys request).all (fun k => k = "request_id" || k = "data") then
      .ok { request_id := rid, data := dat }
    else
      .error .typeError
  | _, _ => .error .typeError

/-- The action-routing block of `handle_request` (kaioagent.py lines
135–143): look up `data["action"]` (`KeyError` if absent, `TypeError`
if `data` is not a dict), then run the selected handler; missing
action-specific keys raise `KeyError`, a failed spawn propagates, and
an unrecognized action yields `{"error": "Unknown action"}`.  Returns
the result dict together with the (possibly updated) environment. -/
def dispatchAction (env : Env) (data : Json) :
    Except AgentError (List (String × Json) × Env) :=
  match data with
  | .obj d =>
    match dictLookup d "action" with
    | none => .error (.keyError "action")
    | some action =>
      if isStrEq action "command" then
        match dictLookup d "command" with
        | none => .error (.keyError "command")
        | some cmd =>
          match (execute_command env.spawn cmd).1 with
          | .error e => .error e
          | .ok r => .ok (r, env)
      else if isStrEq action "read" then
        match dictLookup d "path" with
        | none => .error (.keyError "path")
        | some p => .ok (read_file env.fs p, env)
      else if isStrEq action "write" then
        match dictLookup d "path" with
        | none => .error (.keyError "path")
        | some p =>
          match dictLookup d "content" with
          | none => .error (.keyError "content")
          | some c =>
            let wr := write_file env.fs p c
            .ok (wr.2, { env with fs := wr.1 })
      else
        .ok ([("error", .str "Unknown action")], env)
  | _ => .error .typeError

/-- Shallow embedding of `KaioAgentSession.handle_request` (kaioagent.py
lines 127–149): build the `ClientRequest`, route by action, then wrap
the result dict into a `ClientResponse` echoing the `request_id`, with
`error = ("error" in result)`.  Any exception raised along the way
propagates to the caller. -/
def handle_request (env : Env) (request : List (String × Json)) :
    Except AgentError (ClientResponse × Env) :=
  match mkClientRequest request with
  | .error e => .error e
  | .ok creq =>
    match dispatchAction env creq.data with
    | .error e => .error e
    | .ok (result, env') =>
      .ok ({ request_id := creq.request_id,
             error := hasKey result "error",
             data := result }, env')

/-- One inbound event seen by the message loop: a message whose JSON
decodes to a dict, a message on which `json.loads` raises, or the peer
closing the connection (`websocket.recv` raises `ConnectionClosed`). -/
inductive InMsg where
  | msg : List (String × Json) → InMsg
  | badJson : InMsg
  | closed : InMsg

/-- How the message loop ends (on the observed finite prefix of the
inbound stream). -/
inductive LoopExit where
  | connectionClosed : LoopExit
  | crashed : AgentError → LoopExit
  | awaitingInput : LoopExit
deriving Repr, DecidableEq

/-- Shallow embedding of `KaioAgentSession.process_messages` (kaioagent.py
lines 112–125) on a finite prefix of the inbound stream: the `while
True` loop receives, decodes, handles, and sends, with the `try` around
the body catching only `websockets.exceptions.ConnectionClosed` (a
clean break).  Any other exception — `json.loads` failing, or
`handle_request` raising — escapes the loop and kills it.  Returns the
responses sent, how the loop ended, and the final environment. -/
def process_messages (env : Env) :
    List InMsg → List ClientResponse × LoopExit × Env
  | [] => ([], .awaitingInput, env)
  | .closed :: _ => ([], .connectionClosed, env)
  | .badJson :: _ => ([], .crashed .jsonDecodeError, env)
  | .msg request :: rest =>
    match handle_request env request with
    | .error e => ([], .crashed e, env)
    | .ok (resp, env') =>
      let out := process_messages env' rest
      (resp :: out.1, out.2.1, out.2.2)

/-! ### Concrete objects used in the closed evaluations -/

/-- Concrete filesystem: no path readable yet, every path writable. -/
def fs0 : FS :=
  { read := fun _ => .error "No such file or directory",
    writable := fun _ => none }

/-- Concrete environment: every command spawns and exits with status 7
producing empty output; filesystem `fs0`. -/
def env0 : Env :=
  { spawn := fun _ => some { returncode := 7, stdout := [], stderr := [] },
    fs := fs0 }

/-- Concrete environment in which every command spawns, exits with
status 7, and emits the single byte `0xFF` on stdout — a byte no valid
UTF-8 stream contains, so `stdout.decode()` raises. -/
def envBad : Env :=
  { spawn := fun _ => some { returncode := 7, stdout := [0xFF], stderr := [] },
    fs := fs0 }

/-- Concrete well-formed request: `read` of a path that does not exist. -/
def reqRead0 : List (String × Json) :=
  [("request_id", .str "42"),
   ("data", .obj [("action", .str "read"), ("path", .str "/nonexistent/path")])]

/-- Concrete well-formed request: run the command `exit 7`. -/
def reqCmd0 : List (String × Json) :=
  [("request_id", .str "7"),
   ("data", .obj [("action", .str "command"), ("command", .str "exit 7")])]

/-- Concrete request with an unrecognized action tag. -/
def reqUnknown0 : List (String × Json) :=
  [("request_id", .str "x"),
   ("data", .obj [("action", .str "frobnicate")])]

/-- Concrete request whose `data` is missing the `action` key. -/
def reqNoAction0 : List (String × Json) :=
  [("request_id", .str "x"), ("data", .obj [])]

/-! ### Helper lemmas -/

/-- Invariants of every successfully constructed response: the
`request_id` is looked up from the request dict and echoed, and the
`error` flag is computed as `"error" in result` on the response data. -/
theorem handle_request_ok_inv (env : Env) (request : List (String × Json))
    (resp : ClientResponse) (env' : Env)
    (hok : handle_request env request = .ok (resp, env')) :
    dictLookup request "request_id" = some resp.request_id
    ∧ resp.error = hasKey resp.data "error" := by
  unfold handle_request at hok
  split at hok
  · exact absurd hok (by simp)
  · rename_i creq hmk
    split at hok
    · exact absurd hok (by simp)
    · rename_i pr hda
      unfold mkClientRequest at hmk
      split at hmk
      · rename_i rid dat hrid hdat
        split at hmk
        · simp only [Except.ok.injEq] at hmk
          simp only [Except.ok.injEq, Prod.mk.injEq] at hok
          obtain ⟨hresp, _⟩ := hok
          subst hmk
          subst hresp
          exact ⟨hrid, rfl⟩
        · exact absurd hmk (by simp)
      · exact absurd hmk (by simp)

/-- Translation is the identity on character lists without a carriage
return: equation for a non-CR head. -/
theorem translateNewlinesList_cons_ne (c : Char) (rest : List Char)
    (h : c ≠ '\r') :
    translateNewlinesList (c :: rest) = c :: translateNewlinesList rest := by
  rw [translateNewlinesList.eq_def]
  split <;> simp_all

/-- Translation is the identity on character lists without a carriage
return. -/
theorem translateNewlinesList_no_cr (l : List Char) (h : '\r' ∉ l) :
    translateNewlinesList l = l := by
  induction l with
  | nil => rfl
  | cons c rest ih =>
    simp only [List.mem_cons, not_or] at h
    rw [translateNewlinesList_cons_ne c rest (fun he => h.1 he.symm), ih h.2]

/-- Recognized action carrying the action-specific fields it requires:
`command` for `action=command`, `path` for `action=read`, and
`path` + `content` for `action=write`. -/
def recognizedWithFields (d : List (String × Json)) : Prop :=
  (dictLookup d "action" = some (.str "command")
      ∧ ∃ c, dictLookup d "command" = some c)
  ∨ (dictLookup d "action" = some (.str "read")
      ∧ ∃ p, dictLookup d "path" = some p)
  ∨ (dictLookup d "action" = some (.str "write")
      ∧ (∃ p, dictLookup d "path" = some p)
      ∧ ∃ c, dictLookup d "content" = some c)

/-! ### Claim theorems -/

/-- C1: for every well-formed request whose `data.action` is one of
`command`, `read` or `write` and which carries the fields that action
requires, the response returned by `handle_request` has `request_id`
equal to the request's `request_id`. -/
theorem handle_request_echoes_request_id (env : Env)
    (request d : List (String × Json)) (rid : Json)
    (resp : ClientResponse) (env' : Env)
    (hrid : dictLookup request "request_id" = some rid)
    (_hdata : dictLookup request "data" = some (.obj d))
    (_hact : recognizedWithFields d)
    (hok : handle_request env request = .ok (resp, env')) :
    resp.request_id = rid := by
  have h := (handle_request_ok_inv env request resp env' hok).1
  rw [hrid] at h
  exact (Option.some.inj h).symm

/-- Concrete instance of C1: a `read` request with id `"42"` is answered
with a response whose `request_id` is `"42"`. -/
theorem handle_request_echoes_request_id_witness :
    handle_request env0 reqRead0
      = .ok ({ request_id := .str "42", error := true,
               data := [("error", .str "No such file or directory")] }, env0)
    ∧ (ClientResponse.mk (.str "42") true
         [("error", .str "No such file or directory")]).request_id
        = Json.str "42" :=
  ⟨rfl, handle_request_echoes_request_id env0 reqRead0
    [("action", .str "read"), ("path", .str "/nonexistent/path")] (.str "42")
    _ env0 rfl rfl
    (Or.inr (Or.inl ⟨rfl, ⟨.str "/nonexistent/path", rfl⟩⟩)) rfl⟩

/-- C2: every response produced by `handle_request` has `error = true`
exactly when its `data` mapping contains an `"error"` key; the flag is
computed from the data, never set independently. -/
theorem response_error_iff_error_key (env : Env)
    (request : List (String × Json)) (resp : ClientResponse) (env' : Env)
    (hok : handle_request env request = .ok (resp, env')) :
    resp.error = hasKey resp.data "error" :=
  (handle_request_ok_inv env request resp env' hok).2

/-- Concrete instance of C2: a command response without an `"error"` key
carries `error = false`. -/
theorem response_error_iff_error_key_witness :
    handle_request env0 reqCmd0
      = .ok ({ request_id := .str "7", error := false,
               data := [("return_code", .int 7), ("stdout", .str ""),
                        ("stderr", .str "")] }, env0)
    ∧ (ClientResponse.mk (.str "7") false
         [("return_code", .int 7), ("stdout", .str ""), ("stderr", .str "")]).error
        = hasKey [("return_code", Json.int 7), ("stdout", Json.str ""),
                  ("stderr", Json.str "")] "error" :=
  ⟨rfl, response_error_iff_error_key env0 reqCmd0 _ env0 rfl⟩

/-- C7: a well-formed request whose action tag is not `command`, `read`
or `write` is answered with the request's id, `error = true` and
`data = {error: "Unknown action"}`. -/
theorem unknown_action_response (env : Env)
    (request d : List (String × Json)) (rid a : Json)
    (hrid : dictLookup request "request_id" = some rid)
    (hdata : dictLookup request "data" = some (.obj d))
    (hkeys : (dictKeys request).all (fun k => k = "request_id" || k = "data") = true)
    (ha : dictLookup d "action" = some a)
    (hnc : isStrEq a "command" = false)
    (hnr : isStrEq a "read" = false)
    (hnw : isStrEq a "write" = false) :
    handle_request env request
      = .ok ({ request_id := rid, error := true,
               data := [("error", .str "Unknown action")] }, env) := by
  unfold handle_request mkClientRequest
  rw [hrid, hdata]
  simp only [hkeys, if_true]
  simp only [dispatchAction]
  rw [ha]
  simp [hnc, hnr, hnw, hasKey, dictLookup]

/-- Concrete instance of C7: the spec's `frobnicate` scenario. -/
theorem unknown_action_response_witness :
    handle_request env0 reqUnknown0
      = .ok ({ request_id := .str "x", error := true,
               data := [("error", .str "Unknown action")] }, env0) :=
  unknown_action_response env0 reqUnknown0 [("action", .str "frobnicate")]
    (.str "x") (.str "frobnicate") rfl rfl rfl rfl rfl rfl rfl

/-- C5 counterexample: a command whose subprocess spawns fine (here it
even completes, with exit status 7) but emits the byte `0xFF` on
stdout makes `execute_command` raise — `stdout.decode()` at line 179
fails — so the executor does raise after a successful spawn, contrary
to `raises only when the process cannot be spawned at all`. -/
theorem execute_command_decode_raise_cex :
    envBad.spawn "exit 7"
      = some { returncode := 7, stdout := [0xFF], stderr := [] }
    ∧ (execute_command envBad.spawn (.str "exit 7")).1
        = .error .unicodeDecodeError :=
  ⟨rfl, rfl⟩

/-- C5 (amended): a nonzero exit status alone never makes
`execute_command` raise: whenever the subprocess spawns and its captured
streams decode as UTF-8, the result carries the exit status in
`return_code`, whatever that status is; an exception occurs only when
the spawn itself fails or when `stdout.decode()` / `stderr.decode()`
fails on the captured bytes. -/
theorem execute_command_exit_status_no_raise
    (spawn : String → Option ProcessResult) (cmd : String) :
    (∀ pr out err, spawn cmd = some pr →
        utf8Decode pr.stdout = some out → utf8Decode pr.stderr = some err →
        (execute_command spawn (.str cmd)).1
          = .ok [("return_code", .int pr.returncode),
                 ("stdout", .str out), ("stderr", .str err)])
    ∧ (∀ e, (execute_command spawn (.str cmd)).1 = .error e →
        (spawn cmd = none ∧ e = .spawnError)
        ∨ ∃ pr, spawn cmd = some pr ∧ e = .unicodeDecodeError
            ∧ (utf8Decode pr.stdout = none ∨ utf8Decode pr.stderr = none)) := by
  constructor
  · intro pr out err hs ho he
    simp [execute_command, hs, ho, he]
  · intro e h
    cases hs : spawn cmd with
    | none =>
      simp [execute_command, hs] at h
      exact Or.inl ⟨rfl, h.symm⟩
    | some pr =>
      cases ho : utf8Decode pr.stdout with
      | none =>
        simp [execute_command, hs, ho] at h
        exact Or.inr ⟨pr, rfl, h.symm, Or.inl ho⟩
      | some out =>
        cases he : utf8Decode pr.stderr with
        | none =>
          simp [execute_command, hs, ho, he] at h
          exact Or.inr ⟨pr, rfl, h.symm, Or.inr he⟩
        | some err => simp [execute_command, hs, ho, he] at h

/-- Concrete instance of the amended C5: the spec's `exit 7` scenario,
exit status 7 and no exception. -/
theorem execute_command_exit_status_no_raise_witness :
    (execute_command env0.spawn (.str "exit 7")).1
      = .ok [("return_code", .int 7), ("stdout", .str ""), ("stderr", .str "")] :=
  (execute_command_exit_status_no_raise env0.spawn "exit 7").1
    { returncode := 7, stdout := [], stderr := [] } "" "" rfl rfl rfl

/-- C4: on every exit path of `execute_command` the indicator task ends
stopped: the task-event trace leaves no indicator runnable, and whenever
an indicator was started it was also cancelled (not merely abandoned). -/
theorem execute_command_stops_indicator
    (spawn : String → Option ProcessResult) (command : Json) :
    indicatorRunningAfter (execute_command spawn command).2 = false
    ∧ (TaskEvent.startIndicator ∈ (execute_command spawn command).2 →
        TaskEvent.cancelIndicator ∈ (execute_command spawn command).2) := by
  cases command with
  | str cmd =>
    cases hs : spawn cmd with
    | none => simp [execute_command, hs, indicatorRunningAfter, List.foldl]
    | some pr =>
      cases ho : utf8Decode pr.stdout with
      | none =>
        simp [execute_command, hs, ho, indicatorRunningAfter, List.foldl]
      | some out =>
        cases he : utf8Decode pr.stderr <;>
          simp [execute_command, hs, ho, he, indicatorRunningAfter, List.foldl]
  | int n => simp [execute_command, indicatorRunningAfter, List.foldl]
  | obj d => simp [execute_command, indicatorRunningAfter, List.foldl]

/-- Concrete instance of C4: a run that started the indicator also
cancelled it. -/
theorem execute_command_stops_indicator_witness :
    TaskEvent.cancelIndicator ∈ (execute_command env0.spawn (.str "exit 7")).2 :=
  (execute_command_stops_indicator env0.spawn (.str "exit 7")).2 (by decide)

/-- C10 counterexample: a command request whose subprocess spawns (and
even completes, with exit status 7) but emits the byte `0xFF` on stdout
produces no result mapping at all: `stdout.decode()` raises out of
`execute_command` and `handle_request` propagates it, so no response is
constructed — contrary to the claim's universal over every request
whose subprocess spawns. -/
theorem command_request_decode_raise_cex :
    envBad.spawn "exit 7"
      = some { returncode := 7, stdout := [0xFF], stderr := [] }
    ∧ handle_request envBad reqCmd0 = .error .unicodeDecodeError :=
  ⟨rfl, rfl⟩

/-- C10 (amended): a command request whose subprocess spawns and whose
captured streams decode as UTF-8 yields a result dict with exactly the
keys `return_code`, `stdout`, `stderr` — never an `error` key — so the
response has `error = false` even for a nonzero exit status; when a
stream does not decode, `execute_command` raises instead and no result
mapping or response is produced. -/
theorem command_result_shape (env : Env)
    (request d : List (String × Json)) (rid : Json) (c : String)
    (pr : ProcessResult) (out err : String)
    (hrid : dictLookup request "request_id" = some rid)
    (hdata : dictLookup request "data" = some (.obj d))
    (hkeys : (dictKeys request).all (fun k => k = "request_id" || k = "data") = true)
    (ha : dictLookup d "action" = some (.str "command"))
    (hc : dictLookup d "command" = some (.str c))
    (hspawn : env.spawn c = some pr)
    (hout : utf8Decode pr.stdout = some out)
    (herr : utf8Decode pr.stderr = some err) :
    handle_request env request
      = .ok ({ request_id := rid, error := false,
               data := [("return_code", .int pr.returncode),
                        ("stdout", .str out),
                        ("stderr", .str err)] }, env)
    ∧ dictKeys [("return_code", Json.int pr.returncode),
                ("stdout", Json.str out), ("stderr", Json.str err)]
        = ["return_code", "stdout", "stderr"]
    ∧ hasKey [("return_code", Json.int pr.returncode),
              ("stdout", Json.str out), ("stderr", Json.str err)]
        "error" = false := by
  refine ⟨?_, rfl, rfl⟩
  unfold handle_request mkClientRequest
  rw [hrid, hdata]
  simp only [hkeys, if_true]
  simp only [dispatchAction]
  rw [ha]
  simp [hc, execute_command, hspawn, hout, herr, isStrEq, hasKey, dictLookup]

/-- Concrete instance of the amended C10: `exit 7` spawns, exits with
status 7 with decodable (empty) output, and the response still has
`error = false` and no `error` key. -/
theorem command_result_shape_witness :
    handle_request env0 reqCmd0
      = .ok ({ request_id := .str "7", error := false,
               data := [("return_code", .int 7), ("stdout", .str ""),
                        ("stderr", .str "")] }, env0) :=
  (command_result_shape env0 reqCmd0
    [("action", .str "command"), ("command", .str "exit 7")] (.str "7")
    "exit 7" { returncode := 7, stdout := [], stderr := [] } "" ""
    rfl rfl rfl rfl rfl rfl rfl rfl).1

/-- C6: the file accessor never lets an exception escape: every
`read_file` result is a `content` or an `error` singleton, every
`write_file` result is a `size` or an `error` singleton, and a failing
underlying read is captured as the `error` entry of the result. -/
theorem file_accessor_never_raises (fs : FS) (path content : Json) :
    ((∃ c, read_file fs path = [("content", Json.str c)])
      ∨ ∃ e, read_file fs path = [("error", Json.str e)])
    ∧ ((∃ n, (write_file fs path content).2 = [("size", Json.int n)])
      ∨ ∃ e, (write_file fs path content).2 = [("error", Json.str e)])
    ∧ (∀ p e, path = Json.str p → fs.read p = .error e →
        read_file fs path = [("error", Json.str e)]) := by
  refine ⟨?_, ?_, ?_⟩
  · cases path with
    | str p =>
      cases hr : fs.read p with
      | ok raw => exact Or.inl ⟨translateNewlines raw, by simp [read_file, hr]⟩
      | error e => exact Or.inr ⟨e, by simp [read_file, hr]⟩
    | int n => exact Or.inr ⟨_, rfl⟩
    | obj d => exact Or.inr ⟨_, rfl⟩
  · cases path with
    | str p =>
      cases hw : fs.writable p with
      | some e => exact Or.inr ⟨e, by simp [write_file, hw]⟩
      | none =>
        cases content with
        | str c => exact Or.inl ⟨(c.length : Int), by simp [write_file, hw]⟩
        | int n =>
          exact Or.inr ⟨"TypeError: write() argument must be str",
            by simp [write_file, hw]⟩
        | obj d =>
          exact Or.inr ⟨"TypeError: write() argument must be str",
            by simp [write_file, hw]⟩
    | int n => exact Or.inr ⟨_, rfl⟩
    | obj d => exact Or.inr ⟨_, rfl⟩
  · intro p e hp hr
    subst hp
    simp [read_file, hr]

/-- Concrete instance of C6: the spec's missing-file scenario. -/
theorem file_accessor_never_raises_witness :
    read_file fs0 (.str "/nonexistent/path")
      = [("error", Json.str "No such file or directory")] :=
  (file_accessor_never_raises fs0 (.str "/nonexistent/path") (.str "")).2.2
    "/nonexistent/path" "No such file or directory" rfl rfl

/-- C8: a successful `write_file` reports `size` equal to the length of
the content written, with no cap applied. -/
theorem write_file_size_eq_length (fs : FS) (p c : String)
    (hw : fs.writable p = none) :
    (write_file fs (.str p) (.str c)).2
      = [("size", Json.int (c.length : Int))] := by
  simp [write_file, hw]

/-- Concrete instance of C8: writing `"hello"` reports size 5. -/
theorem write_file_size_eq_length_witness :
    fs0.writable "/tmp/a" = none
    ∧ (write_file fs0 (.str "/tmp/a") (.str "hello")).2
        = [("size", Json.int 5)] :=
  ⟨rfl, write_file_size_eq_length fs0 "/tmp/a" "hello" rfl⟩

/-- C9 counterexample: carriage returns are not encoding-breaking, yet
writing `"a\rb"` and immediately reading the same path back yields
`{content: "a\nb"}`, not `{content: "a\rb"}` — text-mode reading
translates `"\r"` to `"\n"`. -/
theorem write_read_roundtrip_cex :
    fs0.writable "/tmp/f" = none
    ∧ read_file (write_file fs0 (.str "/tmp/f") (.str "a\rb")).1 (.str "/tmp/f")
        = [("content", Json.str "a\nb")]
    ∧ ("a\nb" : String) ≠ "a\rb" :=
  ⟨rfl, rfl, by decide⟩

/-- C9 (amended): a successful `write_file(path, content)` followed
immediately by `read_file(path)` returns exactly `{content: content}`
for every content free of carriage-return characters. -/
theorem write_read_roundtrip_no_cr (fs : FS) (p c : String)
    (hw : fs.writable p = none) (hcr : '\r' ∉ c.data) :
    read_file (write_file fs (.str p) (.str c)).1 (.str p)
      = [("content", Json.str c)] := by
  simp [write_file, hw, read_file, translateNewlines,
        translateNewlinesList_no_cr c.data hcr]

/-- Concrete instance of the amended C9: `"hello"` round-trips. -/
theorem write_read_roundtrip_no_cr_witness :
    read_file (write_file fs0 (.str "/tmp/f") (.str "hello")).1 (.str "/tmp/f")
      = [("content", Json.str "hello")] :=
  write_read_roundtrip_no_cr fs0 "/tmp/f" "hello" rfl (by decide)

/-- C3 counterexample: a request whose `data` is missing the `action`
key makes `handle_request` raise `KeyError("action")`; the loop in
`process_messages` catches only `ConnectionClosed`, so it crashes with
that exception and sends no error response at all. -/
theorem decode_failure_crashes_loop_cex :
    process_messages env0 [InMsg.msg reqNoAction0]
      = ([], .crashed (.keyError "action"), env0) := rfl

/-- C3 (amended): on a decode failure the dispatcher does not report an
error shape back: a request missing `data.action` makes `handle_request`
raise and the message loop crash with `KeyError("action")` before
anything is sent, and malformed JSON crashes it with the decode error —
only a connection closed by the peer is caught. -/
theorem decode_failure_crashes_loop (env : Env)
    (request d : List (String × Json)) (rid : Json) (rest : List InMsg)
    (hrid : dictLookup request "request_id" = some rid)
    (hdata : dictLookup request "data" = some (.obj d))
    (hkeys : (dictKeys request).all (fun k => k = "request_id" || k = "data") = true)
    (hact : dictLookup d "action" = none) :
    process_messages env (.msg request :: rest)
      = ([], .crashed (.keyError "action"), env)
    ∧ process_messages env (.badJson :: rest)
      = ([], .crashed .jsonDecodeError, env) := by
  constructor
  · have h : handle_request env request = .error (.keyError "action") := by
      unfold handle_request mkClientRequest
      rw [hrid, hdata]
      simp only [hkeys, if_true]
      simp only [dispatchAction]
      rw [hact]
    simp [process_messages, h]
  · rfl

/-- Concrete instance of the amended C3: the loop dies on the
missing-`action` request and on malformed JSON. -/
theorem decode_failure_crashes_loop_witness :
    process_messages env0 (InMsg.msg reqNoAction0 :: [InMsg.badJson])
      = ([], .crashed (.keyError "action"), env0)
    ∧ process_messages env0 (InMsg.badJson :: [InMsg.badJson])
      = ([], .crashed .jsonDecodeError, env0) :=
  decode_failure_crashes_loop env0 reqNoAction0 [] (.str "x") [InMsg.badJson]
    rfl rfl rfl rfl

end KaioAgent
